import Mathlib

/-!
Verification development for the medical-ai document analysis pipeline.

Shallow embedding of the repository's Python sources:
  src/src/textextraction.py  (validator, OCR extraction)
  src/src/pdfconverter.py    (PDF rasterization)
  src/src/analysis.py        (JSON extraction, document classification)
  src/src/main.py            (batch /analyze handler)
  src/src/config.py          (constants)
  src/frontend/app.py        (failure-reason rendering)

External effects (file system, OCR provider, vision model) are modelled as
explicit environment records; machine behaviour of pure logic (string
handling, regex span, JSON parsing, sorting) is translated directly.
-/

namespace MedicalAI

/-- Parsed JSON value, the result type of the `json.loads` model.  Numbers are
kept as their matched literal text (Python would convert to int/float; no
claim depends on numeric value).  Objects keep members in textual order. -/
inductive Json where
  | null : Json
  | bool (b : Bool) : Json
  | num (lit : String) : Json
  | str (s : String) : Json
  | arr (elems : List Json) : Json
  | obj (members : List (String × Json)) : Json

/-- JSON whitespace characters, as in Python's `json` module (`[ \t\n\r]`). -/
def isJsonWS (c : Char) : Bool :=
  c == ' ' || c == '\t' || c == '\n' || c == '\r'

/-- Drop leading JSON whitespace. -/
def skipWS (cs : List Char) : List Char :=
  cs.dropWhile isJsonWS

/-- Value of a hexadecimal digit, if the character is one. -/
def hexDigitVal (c : Char) : Option Nat :=
  if '0' ≤ c ∧ c ≤ '9' then some (c.toNat - '0'.toNat)
  else if 'a' ≤ c ∧ c ≤ 'f' then some (c.toNat - 'a'.toNat + 10)
  else if 'A' ≤ c ∧ c ≤ 'F' then some (c.toNat - 'A'.toNat + 10)
  else none

/-- Parse exactly four hex digits (the `\uXXXX` escape payload). -/
def parse4Hex : List Char → Option (Nat × List Char)
  | a :: b :: c :: d :: r =>
    match hexDigitVal a, hexDigitVal b, hexDigitVal c, hexDigitVal d with
    | some x, some y, some z, some w => some (((x * 16 + y) * 16 + z) * 16 + w, r)
    | _, _, _, _ => none
  | _ => none

/-- Body of a JSON string after the opening quote, strict mode as in
`json.loads`: unescaped control characters are rejected, the eight standard
escapes and `\uXXXX` are decoded, and a high/low surrogate escape pair is
combined.  A lone surrogate (legal for Python, which produces a lone
surrogate code unit) is not representable as a Lean `Char`; `Char.ofNat`
maps it to U+0000, which does not affect parse success/failure. -/
def parseStringBody : Nat → List Char → List Char → Option (String × List Char)
  | 0, _, _ => none
  | _ + 1, [], _ => none
  | f + 1, c :: rest, acc =>
    if c == '"' then some (String.mk acc.reverse, rest)
    else if c == '\\' then
      match rest with
      | [] => none
      | e :: r2 =>
        if e == '"' then parseStringBody f r2 ('"' :: acc)
        else if e == '\\' then parseStringBody f r2 ('\\' :: acc)
        else if e == '/' then parseStringBody f r2 ('/' :: acc)
        else if e == 'b' then parseStringBody f r2 ('\x08' :: acc)
        else if e == 'f' then parseStringBody f r2 ('\x0c' :: acc)
        else if e == 'n' then parseStringBody f r2 ('\n' :: acc)
        else if e == 'r' then parseStringBody f r2 ('\x0d' :: acc)
        else if e == 't' then parseStringBody f r2 ('\t' :: acc)
        else if e == 'u' then
          match parse4Hex r2 with
          | none => none
          | some (code, r3) =>
            if 0xD800 ≤ code ∧ code < 0xDC00 then
              match r3 with
              | '\\' :: 'u' :: r4 =>
                match parse4Hex r4 with
                | some (lo, r5) =>
                  if 0xDC00 ≤ lo ∧ lo ≤ 0xDFFF then
                    parseStringBody f r5
                      (Char.ofNat (0x10000 + (code - 0xD800) * 0x400 + (lo - 0xDC00)) :: acc)
                  else parseStringBody f ('\\' :: 'u' :: r4) (Char.ofNat code :: acc)
                | none => parseStringBody f ('\\' :: 'u' :: r4) (Char.ofNat code :: acc)
              | _ => parseStringBody f r3 (Char.ofNat code :: acc)
            else parseStringBody f r3 (Char.ofNat code :: acc)
        else none
    else if c.toNat < 0x20 then none
    else parseStringBody f rest (c :: acc)

/-- Integer part of the JSON number grammar: `0` or a nonzero digit followed
by digits (leading zeros are not absorbed, as in the `json` module regex). -/
def parseIntPart : List Char → Option (List Char × List Char)
  | [] => none
  | c :: r =>
    if c == '0' then some ([c], r)
    else if c.isDigit then some (c :: r.takeWhile Char.isDigit, r.dropWhile Char.isDigit)
    else none

/-- Optional fraction part `(\.\d+)?`; returns `([], input)` when absent. -/
def parseFracPart : List Char → List Char × List Char
  | '.' :: d :: r =>
    if d.isDigit then ('.' :: d :: r.takeWhile Char.isDigit, r.dropWhile Char.isDigit)
    else ([], '.' :: d :: r)
  | cs => ([], cs)

/-- Optional exponent part `([eE][-+]?\d+)?`; returns `([], input)` when absent. -/
def parseExpPart : List Char → List Char × List Char
  | [] => ([], [])
  | e :: r =>
    if e == 'e' || e == 'E' then
      match r with
      | [] => ([], e :: r)
      | s :: r2 =>
        if s == '+' || s == '-' then
          match r2 with
          | [] => ([], e :: r)
          | d :: r3 =>
            if d.isDigit then (e :: s :: d :: r3.takeWhile Char.isDigit, r3.dropWhile Char.isDigit)
            else ([], e :: r)
        else if s.isDigit then (e :: s :: r2.takeWhile Char.isDigit, r2.dropWhile Char.isDigit)
        else ([], e :: r)
    else ([], e :: r)

/-- JSON number literal, per the `json` module regex
`(-?(?:0|[1-9]\d*))(\.\d+)?([eE][-+]?\d+)?`. -/
def parseNumber (cs : List Char) : Option (String × List Char) :=
  let (sign, cs1) :=
    match cs with
    | '-' :: r => ((['-'] : List Char), r)
    | _ => (([] : List Char), cs)
  match parseIntPart cs1 with
  | none => none
  | some (ipart, r1) =>
    let (fpart, r2) := parseFracPart r1
    let (epart, r3) := parseExpPart r2
    some (String.mk (sign ++ ipart ++ fpart ++ epart), r3)

/-- Does the character list start with the given literal keyword? -/
def startsWithKeyword (cs : List Char) (kw : String) : Bool :=
  cs.take kw.data.length == kw.data

mutual

/-- One JSON value at the head of the input (whitespace already skipped),
mirroring the `json` module scanner: strings, objects, arrays, the literals
`null`/`true`/`false`, numbers, and the Python extensions `NaN`,
`Infinity`, `-Infinity`.  Fuel decreases on every recursive call; callers
supply ample fuel. -/
def parseValue : Nat → List Char → Option (Json × List Char)
  | 0, _ => none
  | _ + 1, [] => none
  | f + 1, c :: rest =>
    if c == '"' then
      match parseStringBody (rest.length + 1) rest [] with
      | some (s, r) => some (Json.str s, r)
      | none => none
    else if c == '{' then parseMembersStart f (skipWS rest)
    else if c == '[' then parseItemsStart f (skipWS rest)
    else if startsWithKeyword (c :: rest) "null" then some (Json.null, (c :: rest).drop 4)
    else if startsWithKeyword (c :: rest) "true" then some (Json.bool true, (c :: rest).drop 4)
    else if startsWithKeyword (c :: rest) "false" then some (Json.bool false, (c :: rest).drop 5)
    else
      match parseNumber (c :: rest) with
      | some (lit, r) => some (Json.num lit, r)
      | none =>
        if startsWithKeyword (c :: rest) "NaN" then some (Json.num "NaN", (c :: rest).drop 3)
        else if startsWithKeyword (c :: rest) "Infinity" then
          some (Json.num "Infinity", (c :: rest).drop 8)
        else if startsWithKeyword (c :: rest) "-Infinity" then
          some (Json.num "-Infinity", (c :: rest).drop 9)
        else none

/-- Object members after `{` (whitespace skipped): empty object or members. -/
def parseMembersStart : Nat → List Char → Option (Json × List Char)
  | 0, _ => none
  | _ + 1, '}' :: rest => some (Json.obj [], rest)
  | f + 1, cs => parseMembers f cs []

/-- One or more `"key" : value` members separated by commas, closed by `}`. -/
def parseMembers : Nat → List Char → List (String × Json) → Option (Json × List Char)
  | 0, _, _ => none
  | f + 1, cs, acc =>
    match cs with
    | '"' :: rest =>
      match parseStringBody (rest.length + 1) rest [] with
      | none => none
      | some (key, r1) =>
        match skipWS r1 with
        | ':' :: r2 =>
          match parseValue f (skipWS r2) with
          | none => none
          | some (v, r3) =>
            match skipWS r3 with
            | ',' :: r4 => parseMembers f (skipWS r4) (acc ++ [(key, v)])
            | '}' :: r4 => some (Json.obj (acc ++ [(key, v)]), r4)
            | _ => none
        | _ => none
    | _ => none

/-- Array items after `[` (whitespace skipped): empty array or items. -/
def parseItemsStart : Nat → List Char → Option (Json × List Char)
  | 0, _ => none
  | _ + 1, ']' :: rest => some (Json.arr [], rest)
  | f + 1, cs => parseItems f cs []

/-- One or more array items separated by commas, closed by `]`. -/
def parseItems : Nat → List Char → List Json → Option (Json × List Char)
  | 0, _, _ => none
  | f + 1, cs, acc =>
    match parseValue f cs with
    | none => none
    | some (v, r1) =>
      match skipWS r1 with
      | ',' :: r2 => parseItems f (skipWS r2) (acc ++ [v])
      | ']' :: r2 => some (Json.arr (acc ++ [v]), r2)
      | _ => none

end

/-- Model of Python `json.loads`: skip leading whitespace, parse exactly one
value, require only whitespace after it.  `none` models a raised
`JSONDecodeError`.  The fuel bound exceeds the fuel any input of this length
can consume. -/
def json_loads (s : String) : Option Json :=
  let cs := skipWS s.data
  match parseValue (4 * s.data.length + 8) cs with
  | some (v, rest) => if (skipWS rest).isEmpty then some v else none
  | none => none

/-- Prefix of `cs` up to and including the last occurrence of `c`. -/
def takeUpToLast (cs : List Char) (c : Char) : List Char :=
  cs.take (cs.length - (cs.reverse.takeWhile (fun x => x ≠ c)).length)

/-- Model of `re.search(r"(\x7b.*\x7d|\[.*\])", text, re.DOTALL)` from
`extract_json_from_text` (src/src/analysis.py line 122): the match starts at
the first position holding an opening brace/bracket with a matching closer
anywhere later (DOTALL lets `.*` cross newlines; the brace branch is tried
first at each position), and greedy `.*` extends it to the last such closer
in the whole remaining text.  Returns the matched group. -/
def braceSpan : List Char → Option (List Char)
  | [] => none
  | c :: rest =>
    if c == '{' && rest.contains '}' then some (c :: takeUpToLast rest '}')
    else if c == '[' && rest.contains ']' then some (c :: takeUpToLast rest ']')
    else braceSpan rest

/-- `re.search` wrapper over strings, returning `match.group()` if any. -/
def regexSearchJson (text : String) : Option String :=
  (braceSpan text.data).map String.mk

/-- `extract_json_from_text` (src/src/analysis.py lines 119-127): regex-locate
a JSON block and `json.loads` it; with no regex match, `json.loads` the whole
text; any failure raises `ValueError("Invalid JSON from model")`, modelled as
`Except.error`. -/
def extract_json_from_text (text : String) : Except String Json :=
  match regexSearchJson text with
  | some grp =>
    match json_loads grp with
    | some v => Except.ok v
    | none => Except.error "Invalid JSON from model"
  | none =>
    match json_loads text with
    | some v => Except.ok v
    | none => Except.error "Invalid JSON from model"

/-- No `{`, `}`, `[` or `]` character occurs in the string. -/
def noBrackets (s : String) : Bool :=
  s.data.all (fun c => c ≠ '{' && c ≠ '}' && c ≠ '[' && c ≠ ']')

/-! ## Configuration constants (src/src/config.py) -/

/-- Maximum number of concurrent OCR requests (src/src/config.py line 2). -/
def MAX_CONCURRENT_OCR : Nat := 5

/-- PDF render resolution (src/src/config.py line 9). -/
def PDF_IMAGE_DPI : Nat := 302

/-- Base directory for rendered PDF pages (src/src/config.py line 10). -/
def PDF_IMAGE_BASE_DIR : String := "uploads/images"

/-! ## Path and string helpers (models of `os.path` / `pathlib` / `str` operations used) -/

/-- ASCII lowercase conversion of one character (the only case mapping the
extensions and paths at issue exercise; Python `str.lower` agrees with it on
ASCII). -/
def lowerChar (c : Char) : Char :=
  if 'A' ≤ c ∧ c ≤ 'Z' then Char.ofNat (c.toNat + 32) else c

/-- Model of Python `str.lower`. -/
def pyLower (s : String) : String := String.mk (s.data.map lowerChar)

/-- Model of Python `str.endswith`. -/
def pyEndsWith (s suf : String) : Bool := suf.data.isSuffixOf s.data

/-- ASCII whitespace, as stripped by Python `str.strip` (which additionally
strips Unicode whitespace, never produced by the strings at issue). -/
def isPySpace (c : Char) : Bool :=
  c == ' ' || c == '\t' || c == '\n' || c == '\x0d' || c == '\x0b' || c == '\x0c'

/-- Model of Python `str.strip()` with no argument. -/
def pyStrip (s : String) : String :=
  String.mk (((s.data.dropWhile isPySpace).reverse.dropWhile isPySpace).reverse)

/-- Model of Python `sep.join(xs)`. -/
def pyJoin (sep : String) : List String → String
  | [] => ""
  | [x] => x
  | x :: y :: xs => x ++ sep ++ pyJoin sep (y :: xs)

/-- `os.path.basename` on a POSIX path: everything after the last `/`. -/
def osBasename (p : String) : String :=
  String.mk ((p.data.reverse.takeWhile (fun c => c ≠ '/')).reverse)

/-- `pathlib.Path(p).name`: trailing slashes dropped, then the last component. -/
def pathName (p : String) : String :=
  let cs := p.data.reverse.dropWhile (fun c => c = '/')
  String.mk ((cs.takeWhile (fun c => c ≠ '/')).reverse)

/-- `pathlib.Path(p).suffix`: the final `.ext` of the last component, where the
dot must be neither the first nor the last character of the name (so hidden
files like `.bashrc` and names with a trailing dot have no suffix). -/
def pathSuffix (p : String) : String :=
  let nm := (pathName p).data
  let afterLen := (nm.reverse.takeWhile (fun c => c ≠ '.')).length
  if afterLen == nm.length then ""
  else
    let i := nm.length - 1 - afterLen
    if i == 0 || afterLen == 0 then ""
    else String.mk (nm.drop i)

/-- The stem part of `os.path.splitext(nm)` for a basename `nm`: the name up
to its last dot, except that dots inside the leading run of dots never split
(so `.bashrc` keeps its full name). -/
def splitextStem (nm : String) : String :=
  let cs := nm.data
  let lead := (cs.takeWhile (fun c => c = '.')).length
  let afterLen := (cs.reverse.takeWhile (fun c => c ≠ '.')).length
  if afterLen == cs.length then nm
  else
    let i := cs.length - 1 - afterLen
    if i < lead then nm else String.mk (cs.take i)

/-! ## Validator (src/src/textextraction.py lines 17-46) -/

/-- Allowed upload extensions (src/src/textextraction.py line 17). -/
def ALLOWED_EXTENSIONS : List String := [".jpg", ".jpeg", ".png", ".pdf"]

/-- 1 KiB minimum size (src/src/textextraction.py line 18). -/
def MIN_FILE_SIZE : Nat := 1024

/-- 100 MiB maximum size (src/src/textextraction.py line 19). -/
def MAX_FILE_SIZE : Nat := 100 * 1024 * 1024

/-- What the operating system reports about one file path: the answers the
validator's `os.path.exists`, `os.path.getsize` and `os.access` calls see. -/
structure FSFile where
  path : String
  present : Bool
  size : Nat
  readable : Bool

/-- `_validate_file` (src/src/textextraction.py lines 25-46): existence,
extension (suffix lowercased, membership in `ALLOWED_EXTENSIONS`), size
bounds, readability, in that order, returning at the first failing check.
The surrounding `try/except` only matters if an `os` call itself raises,
which the `FSFile` model renders impossible. -/
def validate_file (f : FSFile) : Bool × String :=
  if !f.present then (false, "File not found")
  else
    let file_ext := pyLower (pathSuffix f.path)
    if !(ALLOWED_EXTENSIONS.contains file_ext) then
      (false, "Unsupported file type: " ++ file_ext)
    else if f.size < MIN_FILE_SIZE then (false, "File too small")
    else if f.size > MAX_FILE_SIZE then (false, "File too large")
    else if !f.readable then (false, "File not readable")
    else (true, "OK")

/-! ## Text Extractor (src/src/textextraction.py lines 52-113) -/

/-- Environment of one `extract_text_from_image` call: the file the validator
inspects, and the outcome of the `SimpleDirectoryReader(...).load_data()`
call with the fresh `LlamaParse` extractor — either the list of extracted
document texts or a raised exception (its message). -/
structure OcrEnv where
  file : FSFile
  parse_result : Except String (List String)

/-- `extract_text_from_image` (src/src/textextraction.py lines 52-113): the
whole body sits inside `try/except Exception`, which returns `""`; a failed
validation returns `""`; an empty document list returns `""`; otherwise the
documents are joined with newlines and stripped. -/
def extract_text_from_image (env : OcrEnv) : String :=
  let vr := validate_file env.file
  if !vr.1 then ""
  else
    match env.parse_result with
    | Except.error _ => ""
    | Except.ok docs =>
      if docs.isEmpty then ""
      else pyStrip (pyJoin "\n" docs)

/-! ## Rasterizer (src/src/pdfconverter.py lines 10-59) -/

/-- Environment of one `pdf_to_images` call: whether `fitz.open` succeeds,
the page count of the opened document, and whether rendering+saving each
1-based page succeeds. -/
structure RasterEnv where
  open_ok : Bool
  page_count : Nat
  render_ok : Nat → Bool

/-- Resource/file-system state threaded through `pdf_to_images`:
`openHandles` counts `fitz` document handles acquired and not yet closed;
`written` lists the `page_{n}.png` files written to the output directory. -/
structure RasterState where
  openHandles : Nat
  written : List String

/-- The `for page_index, page in enumerate(document, start=1)` rendering loop
(src/src/pdfconverter.py lines 50-54), from page `i` with `r` pages left:
returns the files written, and the raised error if a `get_pixmap`/`save`
call fails (aborting the loop). -/
def renderFrom (env : RasterEnv) : Nat → Nat → List String × Option String
  | _, 0 => ([], none)
  | i, r + 1 =>
    if env.render_ok i then
      let rest := renderFrom env (i + 1) r
      (("page_" ++ toString i ++ ".png") :: rest.1, rest.2)
    else ([], some ("cannot render page " ++ toString i))

/-- `pdf_to_images` (src/src/pdfconverter.py lines 10-59) with the default
`base_dir`: derives the folder name `pdf_name` from the path, opens the
document (a raised open error propagates before any handle is acquired),
renders pages 1..N, then reaches `document.close()` only on the fall-through
path after the loop — a render error propagates with the handle still open,
exactly as in the source, where no `try/finally` or context manager guards
the handle. -/
def pdf_to_images (env : RasterEnv) (pdf_path : String) (st : RasterState) :
    Except String String × RasterState :=
  let pdf_name := splitextStem (osBasename pdf_path)
  if !env.open_ok then (Except.error "cannot open PDF", st)
  else
    let st1 : RasterState := { st with openHandles := st.openHandles + 1 }
    let pr := renderFrom env 1 env.page_count
    let st2 : RasterState := { st1 with written := st1.written ++ pr.1 }
    match pr.2 with
    | some e => (Except.error e, st2)
    | none => (Except.ok pdf_name, { st2 with openHandles := st2.openHandles - 1 })

/-! ## Python `sorted` on strings -/

/-- Python string `<` : lexicographic comparison by code point. -/
def charListLE : List Char → List Char → Bool
  | [], _ => true
  | _ :: _, [] => false
  | a :: xs, b :: ys =>
    if a.toNat < b.toNat then true
    else if b.toNat < a.toNat then false
    else charListLE xs ys

/-- `a <= b` for Python strings. -/
def strLE (a b : String) : Bool := charListLE a.data b.data

/-- Insert into a sorted list, keeping it sorted (stable). -/
def insertSorted (x : String) : List String → List String
  | [] => [x]
  | y :: ys => if strLE x y then x :: y :: ys else y :: insertSorted x ys

/-- Model of Python `sorted` on a list of strings: ascending lexicographic
order by code point (insertion sort — same output as Timsort on any input). -/
def pySorted (l : List String) : List String := l.foldr insertSorted []

/-! ## Prompt assembly and classification (src/src/analysis.py lines 24-195) -/

/-- The MEDICAL_DOC master prompt (src/src/analysis.py lines 24-112),
transcribed verbatim; braces and apostrophes appear as `\x7b`, `\x7d` and
`\x27` escapes. -/
def PROMPT : String := String.intercalate "\n" [
  "",
  "You are the MEDICAL_DOC Analysis AI.",
  "",
  "Your task is to analyze medical prescriptions, discharge summaries, medical reports, or hospital documents.",
  "",
  "STRICTLY extract and return the following:",
  "CRITICAL INSTRUCTIONS - READ CAREFULLY:",
  "1. **BE THOROUGH**: Extract ALL medical information from the document.",
  "2. **BE ACCURATE**: Distinguish clearly between facts found in the document and your medical suggestions.",
  "3. **BE COMPLETE**: Identify all diagnoses, symptoms, medications, and treatment plans.",
  "4. **BE CAREFUL**: Flag missing information and inconsistencies.",
  "5. **BE HELPFUL**: Use simple language for patient understanding.",
  "",
  "**SECTION 1 - PATIENT DATA EXTRACTION (CRITICAL):**",
  "- patient_name: Extract the EXACT full name. Look near labels like \x27Name\x27, \x27Patient\x27, \x27MR.\x27, or \x27MRS.\x27 even if separated by colons or located on the next line.",
  "- patient_age: Extract age in years (e.g., \"45\").",
  "- patient_sex: Extract as \"Male\", \"Female\", or \"Other\".",
  "- clinical_info: Write 3-4 sentences covering chief complaint, findings, diagnoses, and symptoms.",
  "",
  "**SECTION 2 - SUMMARY_FOR_HUMAN (Patient-friendly narrative):**",
  "- MUST be explain briefly in short note and 10-lines.",
  "- Start with: \"The patient, [Name], aged [Age], is a [Male/Female]...\"",
  "- Include: Reason for visit → Findings → The plan.",
  "",
  "**SECTION 3 - DISEASE_EXPLANATION (Educational but simple):**",
  "- MUST be explain briefly in short note and 10-lines.",
  "- Use analogies patients understand. NEVER say \"N/A\". ",
  "- If diagnosis is missing, explain the likely condition based on symptoms.",
  "",
  "**SECTION 4 - MEDICINE_INFO (Medications & Augmentation):**",
  "Format: \"Medicine Name: Dosage - Frequency - Purpose/Indication.\"",
  "Rules for Generation & Extraction:",
  "- RULE A: List EVERY medication explicitly mentioned in the document. ",
  "- RULE B: Return semi-structured and unstructured medicine information.",
  "- Return as a LIST of strings. Never return \"N/A\".",
  "",
  "**SECTION 5 - HOSPITAL_GUIDE (Next steps):**",
  "- MUST be 7-9 sentences written as a SINGLE continuous paragraph.",
  "- Do not use bullet points or numbered lists.",
  "- Recommend specialist type only if names are not present in the document.",
  "",
  "**SECTION 6 - VALIDATION RULES (STRICT AUDIT):**",
  "Analyze the document for these 4 specific compliance elements. Return \"Found\" ONLY if the element is clearly present:",
  "",
  "1. **Patient Name**: Look for patient\x27s full name or at least first and last name. Valid indicators: \"Name:\", \"Patient:\", \"MR.\", \"Patient Name\", \"Pt:\". If name field is blank or says \"N/A\", mark as \"Missing\".",
  "",
  "2. **Date**: Look for any date field (appointment date, report date, prescription date, visit date, collected date). Valid indicators: \"Date:\", \"Date of Report:\", \"Date of Visit:\", \"Appointment:\", specific dates like \"12/15/2025\". If no date is present, mark as \"Missing\".",
  "",
  "3. **Medication**: Look for ANY medication name with dosage information (e.g., \"Aspirin 500mg\", \"Metformin Twice daily\"). Do NOT count lab results (CBC, RBC, Blood Pressure, etc.). If no medications are listed with dosages, mark as \"Missing\".",
  "",
  "4. **Physician Signature**: Look for doctor\x27s name/signature line, stamp, digital signature marker, or authentication. Valid indicators: \"Dr.\", \"Signature:\", \"/s/\", signature block, doctor\x27s name with title. If no signature, stamp, or doctor identifier is present, mark as \"Missing\".",
  "",
  "**VALIDATION LOGIC:**",
  "- Mark as \"Found\" ONLY if the element is clearly and unmistakably present in the document.",
  "- If ANY of these 4 are missing, the document status is \"FAILED\".",
  "- **CRITICAL RULE**: If the document fails, list **ONLY** the specific items that are missing in failure_reason.",
  "",
  "**OUTPUT FORMAT:**",
  "Return STRICT JSON only.",
  "",
  "If FAILED:",
  "\x7b",
  " \"document_status\": \"FAILED\",",
  " \"compliance_summary\": \x7b",
  "    \"patient_name\": \"Found/Missing\",",
  "    \"date\": \"Found/Missing\",",
  "    \"medication\": \"Found/Missing\",",
  "    \"physician_signature\": \"Found/Missing\"",
  " \x7d,",
  " \"failure_reason\": \"The document failed validation because the following specific item(s) are missing: [List ONLY the missing items]\"",
  "\x7d",
  "",
  "If VALID:",
  "\x7b",
  " \"document_status\": \"VALID\",",
  " \"patient_data\": \x7b",
  "    \"patient_name\": \"...\",",
  "    \"patient_age\": \"...\",",
  "    \"patient_sex\": \"...\",",
  "    \"clinical_info\": \"...\"",
  " \x7d,",
  " \"summary_for_human\": \"...\",",
  " \"disease_explanation\": \"...\",",
  " \"medication_info\": [],",
  " \"hospital_guide\": \"...\"",
  "\x7d",
  "",
  "Return STRICT JSON only.",
  ""]

/-- One element of the user message `content` list: the leading text part or
an `image_url` part holding a base64 data URI. -/
inductive ContentPart where
  | text (s : String) : ContentPart
  | image_url (url : String) : ContentPart

/-- Environment of one `classify_document` call: the OCR environment, the
rasterizer environment (for PDF inputs), the `image_to_base64` oracle for
each image path, whether `OPENAI_API_KEY` is set, and the outcome of the
chat-completions call — an `APIStatusError` (status code and message) or the
response text `response.choices[0].message.content`. -/
structure ClassifyEnv where
  ocr : OcrEnv
  raster : RasterEnv
  base64_of : String → String
  api_key_present : Bool
  model_result : Except (Nat × String) String

/-- Steps 1-2 of `classify_document` (src/src/analysis.py lines 134-170):
the text part (prompt plus OCR text), then the image attachments.  For a
path ending in `.pdf` (lowercased), `pdf_to_images` runs (its errors
propagate), the fresh output directory `uploads/images/{stem}` is listed —
it holds exactly the files just written — and the loop appends one
attachment per file in Python `sorted` order of the file names.  Otherwise a
single attachment for the image itself is appended. -/
def buildContent (env : ClassifyEnv) (file_path : String) :
    Except String (List ContentPart) :=
  let ocr_text := extract_text_from_image env.ocr
  let head := ContentPart.text (PROMPT ++ "\n\nEXTRACTED DOCUMENT TEXT:\n" ++ ocr_text)
  if pyEndsWith (pyLower file_path) ".pdf" then
    match pdf_to_images env.raster file_path { openHandles := 0, written := [] } with
    | (Except.error e, _) => Except.error e
    | (Except.ok folder_name, stf) =>
      let image_dir := PDF_IMAGE_BASE_DIR ++ "/" ++ folder_name
      let names := pySorted stf.written
      Except.ok (head :: names.map (fun nm =>
        ContentPart.image_url ("data:image/png;base64," ++ env.base64_of (image_dir ++ "/" ++ nm))))
  else
    Except.ok [head, ContentPart.image_url ("data:image/png;base64," ++ env.base64_of file_path)]

/-- The image attachments of an assembled content list, in order. -/
def attachmentsOf (parts : List ContentPart) : List String :=
  parts.filterMap (fun p =>
    match p with
    | ContentPart.image_url u => some u
    | ContentPart.text _ => none)

/-- The fixed result `classify_document` returns when JSON extraction raises
(src/src/analysis.py lines 191-195). -/
def parseFailureResult : Json :=
  Json.obj [("document_status", Json.str "FAILED"),
    ("failure_reason", Json.str "Model output parsing failed. The document structure could not be verified.")]

/-- `classify_document` (src/src/analysis.py lines 129-195): assemble the
multimodal message (rasterization errors propagate), raise if
`OPENAI_API_KEY` is absent, call the model mapping `APIStatusError` to a
`RuntimeError` carrying the status, strip the response text, and parse it —
a parse failure is caught and becomes `parseFailureResult`, never an error.
`Except.error` models a raised exception reaching the caller. -/
def classify_document (env : ClassifyEnv) (file_path : String) : Except String Json :=
  match buildContent env file_path with
  | Except.error e => Except.error e
  | Except.ok _parts =>
    if !env.api_key_present then
      Except.error "OPENAI_API_KEY is missing in environment."
    else
      match env.model_result with
      | Except.error se =>
        Except.error ("Model API error (" ++ toString se.1 ++ "): " ++ se.2)
      | Except.ok content =>
        let raw_output := pyStrip content
        match extract_json_from_text raw_output with
        | Except.ok j => Except.ok j
        | Except.error _ => Except.ok parseFailureResult

/-! ## Batch handler (src/src/main.py lines 24-52) -/

/-- The inner `process` closure of the `/analyze` handler (src/src/main.py
lines 27-49), at the level of one file's `classify_document` outcome (the
upload's write-to-disk step is external file persistence, out of scope):
a successful analysis is wrapped as `{file, analysis}`; a raised exception
is caught by the `except Exception` arm and converted into a `Failed`
analysis whose reason is `"System Error: "` plus the exception text.  The
function is total: no outcome makes it raise. -/
def process (filename : String) (outcome : Except String Json) : Json :=
  match outcome with
  | Except.ok result =>
    Json.obj [("file", Json.str filename), ("analysis", result)]
  | Except.error e =>
    Json.obj [("file", Json.str filename),
      ("analysis", Json.obj [("document_status", Json.str "FAILED"),
        ("failure_reason", Json.str ("System Error: " ++ e))])]

/-- The `/analyze` handler body (src/src/main.py lines 24-52):
`asyncio.gather` over `process` applied to each uploaded file, keeping input
order.  Each file is given with its filename and its `classify_document`
outcome. -/
def analyze (files : List (String × Except String Json)) : List Json :=
  files.map (fun fo => process fo.1 fo.2)

/-! ## Frontend failure rendering (src/frontend/app.py lines 56-86) -/

/-- The human-friendly reason map (src/frontend/app.py lines 63-68), in its
Python dict insertion order. -/
def reasons : List (String × String) := [
  ("patient_name", "Patient name is missing. A valid medical report must clearly identify the patient."),
  ("date", "Report date is missing. The document must clearly specify when it was issued."),
  ("medication", "No medications identified. This system requires a prescription list for analysis."),
  ("physician_signature", "Doctor signature or authentication details are missing.")]

/-- The numbered-list loop of the FAILED branch (src/frontend/app.py lines
70-75): for each key of `reasons` in order, the message is rendered exactly
when `checks.get(key) == "Missing"`.  `checks` is the response's
`compliance_summary` dict, modelled as an association list. -/
def renderFailureReasons (checks : List (String × String)) : List String :=
  (reasons.filter (fun kv => List.lookup kv.1 checks == some "Missing")).map Prod.snd

/-- A `compliance_summary` assigning each of the four fixed keys `"Missing"`
(flag `true`) or `"Found"` (flag `false`). -/
def mkChecks (b1 b2 b3 b4 : Bool) : List (String × String) :=
  [("patient_name", if b1 then "Missing" else "Found"),
   ("date", if b2 then "Missing" else "Found"),
   ("medication", if b3 then "Missing" else "Found"),
   ("physician_signature", if b4 then "Missing" else "Found")]

/-! ## Concurrency model for OCR calls -/

/-- Phase of one `extract_text_from_image` call: before its external OCR
call, inside it, or finished. -/
inductive Phase where
  | idle : Phase
  | inOCR : Phase
  | busyDone : Phase
deriving DecidableEq, BEq

/-- Number of calls currently inside the external OCR call. -/
def inFlight (s : List Phase) : Nat := s.countP (fun p => p == Phase.inOCR)

/-- Interleaving semantics of a batch of concurrent `extract_text_from_image`
calls, as the source defines them: the function body takes no lock and
consults no semaphore — `MAX_CONCURRENT_OCR` (src/src/config.py) is never
referenced by src/src/textextraction.py — so the scheduler may move any
idle call into its OCR call regardless of how many are already in flight,
and any in-flight call may finish. -/
inductive OcrSchedule : List Phase → Prop where
  | init (n : Nat) : OcrSchedule (List.replicate n Phase.idle)
  | start (s : List Phase) (i : Nat) (hi : i < s.length)
      (hidle : s.get ⟨i, hi⟩ = Phase.idle) (hs : OcrSchedule s) :
      OcrSchedule (s.set i Phase.inOCR)
  | finish (s : List Phase) (i : Nat) (hi : i < s.length)
      (hbusy : s.get ⟨i, hi⟩ = Phase.inOCR) (hs : OcrSchedule s) :
      OcrSchedule (s.set i Phase.busyDone)

/-! ## Concrete environments used by witnesses and counterexamples -/

/-- A file the validator rejects (it does not exist). -/
def fMissingPng : FSFile := { path := "x.png", present := false, size := 0, readable := false }

/-- A ten-page PDF whose rasterization fully succeeds; OCR fails, the API key
is present, and `image_to_base64` is observed through the image path it is
given. -/
def classifyEnvTen : ClassifyEnv :=
  { ocr := { file := fMissingPng, parse_result := Except.error "ocr failed" },
    raster := { open_ok := true, page_count := 10, render_ok := fun _ => true },
    base64_of := fun p => p,
    api_key_present := true,
    model_result := Except.ok "irrelevant" }

/-- A rasterizer environment where the document opens but rendering page 1
raises. -/
def rasterRenderFailEnv : RasterEnv :=
  { open_ok := true, page_count := 1, render_ok := fun _ => false }

/-- A single-image classification where the model answers prose instead of
JSON. -/
def classifyEnvParseFail : ClassifyEnv :=
  { ocr := { file := fMissingPng, parse_result := Except.error "ocr failed" },
    raster := { open_ok := true, page_count := 0, render_ok := fun _ => true },
    base64_of := fun p => p,
    api_key_present := true,
    model_result := Except.ok "I am sorry, I cannot produce JSON." }

/-! ## Helper lemmas -/

/-- The regex `(\x7b.*\x7d|\[.*\])` cannot match a text containing no brace or
bracket characters. -/
theorem braceSpan_eq_none (cs : List Char)
    (h : ∀ c ∈ cs, c ≠ '{' ∧ c ≠ '}' ∧ c ≠ '[' ∧ c ≠ ']') :
    braceSpan cs = none := by
  induction cs with
  | nil => rfl
  | cons c rest ih =>
    have hc := h c (List.mem_cons_self c rest)
    have h1 : (c == '{') = false := beq_eq_false_iff_ne.mpr hc.1
    have h2 : (c == '[') = false := beq_eq_false_iff_ne.mpr hc.2.2.1
    have ih2 := ih (fun x hx => h x (List.mem_cons_of_mem c hx))
    simp [braceSpan, h1, h2, ih2]

/-- When every page renders, the rendering loop raises no error. -/
theorem renderFrom_no_error (env : RasterEnv) (h : ∀ i, env.render_ok i = true) :
    ∀ r i, (renderFrom env i r).2 = none := by
  intro r
  induction r with
  | zero => intro i; rfl
  | succ n ih =>
    intro i
    simp [renderFrom, h i, ih (i + 1)]

/-! ## Claim theorems -/

/-- Claim C1 (status: code_bug, evaluation at the failing input).  For the
ten-page PDF `uploads/doc.pdf` the request assembled by `classify_document`
does contain exactly ten image attachments — but `sorted(os.listdir(...))`
over the unpadded names `page_1.png` … `page_10.png` is lexicographic, so
the attachment order is `page_1, page_10, page_2, …, page_9`, not the
ascending numeric page order the spec mandates (the second list below), and
not the order in which the Rasterizer wrote the files. -/
theorem classify_document_pdf_attachment_order_ten_pages :
    (buildContent classifyEnvTen "uploads/doc.pdf").map attachmentsOf =
      Except.ok [
        "data:image/png;base64,uploads/images/doc/page_1.png",
        "data:image/png;base64,uploads/images/doc/page_10.png",
        "data:image/png;base64,uploads/images/doc/page_2.png",
        "data:image/png;base64,uploads/images/doc/page_3.png",
        "data:image/png;base64,uploads/images/doc/page_4.png",
        "data:image/png;base64,uploads/images/doc/page_5.png",
        "data:image/png;base64,uploads/images/doc/page_6.png",
        "data:image/png;base64,uploads/images/doc/page_7.png",
        "data:image/png;base64,uploads/images/doc/page_8.png",
        "data:image/png;base64,uploads/images/doc/page_9.png"] ∧
    ([
        "data:image/png;base64,uploads/images/doc/page_1.png",
        "data:image/png;base64,uploads/images/doc/page_10.png",
        "data:image/png;base64,uploads/images/doc/page_2.png",
        "data:image/png;base64,uploads/images/doc/page_3.png",
        "data:image/png;base64,uploads/images/doc/page_4.png",
        "data:image/png;base64,uploads/images/doc/page_5.png",
        "data:image/png;base64,uploads/images/doc/page_6.png",
        "data:image/png;base64,uploads/images/doc/page_7.png",
        "data:image/png;base64,uploads/images/doc/page_8.png",
        "data:image/png;base64,uploads/images/doc/page_9.png"] : List String) ≠
      [
        "data:image/png;base64,uploads/images/doc/page_1.png",
        "data:image/png;base64,uploads/images/doc/page_2.png",
        "data:image/png;base64,uploads/images/doc/page_3.png",
        "data:image/png;base64,uploads/images/doc/page_4.png",
        "data:image/png;base64,uploads/images/doc/page_5.png",
        "data:image/png;base64,uploads/images/doc/page_6.png",
        "data:image/png;base64,uploads/images/doc/page_7.png",
        "data:image/png;base64,uploads/images/doc/page_8.png",
        "data:image/png;base64,uploads/images/doc/page_9.png",
        "data:image/png;base64,uploads/images/doc/page_10.png"] :=
  ⟨rfl, by decide⟩

/-- Claim C2 (status: confirmed).  The `/analyze` handler returns exactly one
entry per input file; each entry is a pure function of that file alone (so
one document's failure cannot perturb another's entry); and a raised
exception is converted at that document's boundary into a `Failed` analysis
with a `System Error:` reason.  Totality of `analyze` is the no-raise
guarantee. -/
theorem analyze_batch_isolation (files : List (String × Except String Json)) :
    (analyze files).length = files.length ∧
    (∀ i fo, files.get? i = some fo → (analyze files).get? i = some (process fo.1 fo.2)) ∧
    (∀ nm e, process nm (Except.error e) =
      Json.obj [("file", Json.str nm),
        ("analysis", Json.obj [("document_status", Json.str "FAILED"),
          ("failure_reason", Json.str ("System Error: " ++ e))])]) := by
  refine ⟨?_, ?_, ?_⟩
  · simp [analyze]
  · intro i fo hfo
    show (files.map (fun x => process x.1 x.2)).get? i = some (process fo.1 fo.2)
    rw [List.get?_map, hfo]
    rfl
  · intro nm e; rfl

/-- Witness for C2, at a two-file batch where the first document's analysis
raised and the second succeeded. -/
theorem analyze_batch_isolation_witness :
    (analyze [("a.pdf", Except.error "boom"), ("b.png", Except.ok Json.null)]).get? 0 =
      some (Json.obj [("file", Json.str "a.pdf"),
        ("analysis", Json.obj [("document_status", Json.str "FAILED"),
          ("failure_reason", Json.str "System Error: boom")])]) ∧
    (analyze [("a.pdf", Except.error "boom"), ("b.png", Except.ok Json.null)]).get? 1 =
      some (Json.obj [("file", Json.str "b.png"), ("analysis", Json.null)]) := by
  have h := analyze_batch_isolation [("a.pdf", Except.error "boom"), ("b.png", Except.ok Json.null)]
  refine ⟨?_, ?_⟩
  · rw [h.2.1 0 ("a.pdf", Except.error "boom") rfl]
    rfl
  · rw [h.2.1 1 ("b.png", Except.ok Json.null) rfl]
    rfl

/-- Claim C3, counterexample: the input `"42"` contains no brace or bracket
character, yet `extract_json_from_text` does not fail — the fallback
`json.loads(text)` parses the bare scalar and the value is returned. -/
theorem extract_json_from_text_scalar_counterexample :
    noBrackets "42" = true ∧
    extract_json_from_text "42" = Except.ok (Json.num "42") :=
  ⟨rfl, rfl⟩

/-- Claim C3 (status: corrected).  For every input string with no `{`, `}`,
`[` or `]` characters that is not itself a complete JSON document (so the
whole-text `json.loads` fallback also fails), `extract_json_from_text`
deterministically raises the malformed-model-output condition. -/
theorem extract_json_from_text_no_brackets_not_json_fails (s : String)
    (hb : noBrackets s = true) (hl : json_loads s = none) :
    extract_json_from_text s = Except.error "Invalid JSON from model" := by
  have h : ∀ c ∈ s.data, c ≠ '{' ∧ c ≠ '}' ∧ c ≠ '[' ∧ c ≠ ']' := by
    intro c hcmem
    have hall := List.all_eq_true.mp hb c hcmem
    simp only [Bool.and_eq_true, decide_eq_true_eq] at hall
    exact ⟨hall.1.1.1, hall.1.1.2, hall.1.2, hall.2⟩
  have hspan : braceSpan s.data = none := braceSpan_eq_none s.data h
  simp [extract_json_from_text, regexSearchJson, hspan, hl]

/-- Witness for C3's corrected statement, at a bracket-free prose input. -/
theorem extract_json_from_text_no_brackets_not_json_fails_witness :
    noBrackets "no valid json here" = true ∧
    extract_json_from_text "no valid json here" = Except.error "Invalid JSON from model" :=
  ⟨rfl, extract_json_from_text_no_brackets_not_json_fails "no valid json here" rfl rfl⟩

/-- Claim C4, counterexample: when rendering page 1 raises, `pdf_to_images`
propagates the error while the `fitz` document handle acquired by
`fitz.open` is still open — `document.close()` sits after the loop with no
`try/finally`, so the release is not guaranteed on every execution path. -/
theorem pdf_to_images_handle_leak_counterexample :
    (pdf_to_images rasterRenderFailEnv "doc.pdf" { openHandles := 0, written := [] }).1 =
      Except.error "cannot render page 1" ∧
    (pdf_to_images rasterRenderFailEnv "doc.pdf" { openHandles := 0, written := [] }).2.openHandles = 1 :=
  ⟨rfl, rfl⟩

/-- Claim C4 (status: corrected).  The handle accounting that does hold: when
`fitz.open` fails no handle is ever acquired (the call returns with the
state untouched), and on the successful path — every page renders — the
handle is closed after the loop and the function returns the PDF stem.  On a
page-render failure the error propagates with the handle unreleased
(see the counterexample). -/
theorem pdf_to_images_handle_release (env : RasterEnv) (p : String) (st : RasterState) :
    (env.open_ok = false → pdf_to_images env p st = (Except.error "cannot open PDF", st)) ∧
    (env.open_ok = true → (∀ i, env.render_ok i = true) →
      (pdf_to_images env p st).1 = Except.ok (splitextStem (osBasename p)) ∧
      (pdf_to_images env p st).2.openHandles = st.openHandles) := by
  constructor
  · intro h
    simp [pdf_to_images, h]
  · intro ho hr
    have h2 := renderFrom_no_error env hr env.page_count 1
    constructor <;> simp [pdf_to_images, ho, h2]

/-- Witness for C4's corrected statement: a two-page PDF that renders fully
leaves no open handle behind. -/
theorem pdf_to_images_handle_release_witness :
    (pdf_to_images { open_ok := true, page_count := 2, render_ok := fun _ => true }
      "uploads/doc.pdf" { openHandles := 0, written := [] }).2.openHandles = 0 :=
  ((pdf_to_images_handle_release { open_ok := true, page_count := 2, render_ok := fun _ => true }
    "uploads/doc.pdf" { openHandles := 0, written := [] }).2 rfl (fun _ => rfl)).2

/-- Claim C5 (status: confirmed).  `extract_text_from_image` is a total
function into `String` — no environment makes it raise — and both on a
validation failure and on an OCR provider failure (a raised exception from
the load call) it returns the empty string. -/
theorem extract_text_from_image_never_raises (env : OcrEnv) :
    ((validate_file env.file).1 = false → extract_text_from_image env = "") ∧
    (∀ e, env.parse_result = Except.error e → extract_text_from_image env = "") := by
  constructor
  · intro h
    simp [extract_text_from_image, h]
  · intro e he
    by_cases h : (validate_file env.file).1 <;> simp [extract_text_from_image, h, he]

/-- Witness for C5: a missing file with a failing OCR provider yields `""`. -/
theorem extract_text_from_image_never_raises_witness :
    extract_text_from_image { file := fMissingPng, parse_result := Except.error "LlamaParse 500" } = "" :=
  (extract_text_from_image_never_raises
    { file := fMissingPng, parse_result := Except.error "LlamaParse 500" }).2 "LlamaParse 500" rfl

/-- Claim C6 (status: confirmed).  Whenever the pipeline reaches the model
and JSON extraction of the stripped response raises, `classify_document`
returns (does not raise) the fixed `Failed` result `parseFailureResult`,
whose `document_status` is `"FAILED"` and whose `failure_reason` says the
document structure could not be verified; the parse error never reaches the
caller. -/
theorem classify_document_parse_failure_contained (env : ClassifyEnv) (fp raw : String)
    (hbuild : ∃ ps, buildContent env fp = Except.ok ps)
    (hkey : env.api_key_present = true)
    (hmodel : env.model_result = Except.ok raw)
    (hparse : extract_json_from_text (pyStrip raw) = Except.error "Invalid JSON from model") :
    classify_document env fp = Except.ok parseFailureResult := by
  obtain ⟨ps, hb⟩ := hbuild
  simp [classify_document, hb, hkey, hmodel, hparse]

/-- Witness for C6: a model that answers prose yields the fixed result. -/
theorem classify_document_parse_failure_contained_witness :
    classify_document classifyEnvParseFail "scan.png" = Except.ok parseFailureResult :=
  classify_document_parse_failure_contained classifyEnvParseFail "scan.png"
    "I am sorry, I cannot produce JSON." ⟨_, rfl⟩ rfl rfl rfl

/-- Claim C7 (status: confirmed).  The validator checks existence, extension
membership (lowercased suffix in `ALLOWED_EXTENSIONS`), the inclusive size
range `[MIN_FILE_SIZE, MAX_FILE_SIZE]`, then readability; it returns the
reason of the first failing check (later fields cannot change the verdict
once an earlier check fails), and returns `(true, "OK")` exactly when all
four checks pass. -/
theorem validate_file_check_order (f : FSFile) :
    (f.present = false → validate_file f = (false, "File not found")) ∧
    (f.present = true → pyLower (pathSuffix f.path) ∉ ALLOWED_EXTENSIONS →
      validate_file f = (false, "Unsupported file type: " ++ pyLower (pathSuffix f.path))) ∧
    (f.present = true → pyLower (pathSuffix f.path) ∈ ALLOWED_EXTENSIONS →
      f.size < MIN_FILE_SIZE → validate_file f = (false, "File too small")) ∧
    (f.present = true → pyLower (pathSuffix f.path) ∈ ALLOWED_EXTENSIONS →
      MIN_FILE_SIZE ≤ f.size → MAX_FILE_SIZE < f.size →
      validate_file f = (false, "File too large")) ∧
    (f.present = true → pyLower (pathSuffix f.path) ∈ ALLOWED_EXTENSIONS →
      MIN_FILE_SIZE ≤ f.size → f.size ≤ MAX_FILE_SIZE → f.readable = false →
      validate_file f = (false, "File not readable")) ∧
    (validate_file f = (true, "OK") ↔
      f.present = true ∧ pyLower (pathSuffix f.path) ∈ ALLOWED_EXTENSIONS ∧
      MIN_FILE_SIZE ≤ f.size ∧ f.size ≤ MAX_FILE_SIZE ∧ f.readable = true) := by
  refine ⟨?_, ?_, ?_, ?_, ?_, ?_⟩
  · intro h
    simp [validate_file, h]
  · intro h1 h2
    simp [validate_file, h1, h2]
  · intro h1 h2 h3
    simp [validate_file, h1, h2, h3]
  · intro h1 h2 h3 h4
    simp [validate_file, h1, h2, h4, Nat.not_lt.mpr h3]
  · intro h1 h2 h3 h4 h5
    simp [validate_file, h1, h2, h5, Nat.not_lt.mpr h3, Nat.not_lt.mpr h4]
  · constructor
    · intro h
      by_cases h1 : f.present
      · by_cases h2 : pyLower (pathSuffix f.path) ∈ ALLOWED_EXTENSIONS
        · by_cases h3 : f.size < MIN_FILE_SIZE
          · simp [validate_file, h1, h2, h3] at h
          · by_cases h4 : MAX_FILE_SIZE < f.size
            · simp [validate_file, h1, h2, h3, h4] at h
            · by_cases h5 : f.readable
              · exact ⟨h1, h2, Nat.not_lt.mp h3, Nat.not_lt.mp h4, h5⟩
              · simp [validate_file, h1, h2, h3, h4, h5] at h
        · simp [validate_file, h1, h2] at h
      · simp [validate_file, h1] at h
    · rintro ⟨h1, h2, h3, h4, h5⟩
      simp [validate_file, h1, h2, h5, Nat.not_lt.mpr h3, Nat.not_lt.mpr h4]

/-- Witness for C7: the first check fires first on a missing file. -/
theorem validate_file_check_order_witness :
    validate_file fMissingPng = (false, "File not found") :=
  (validate_file_check_order fMissingPng).1 rfl

/-- Claim C8 (status: confirmed).  For every `compliance_summary` assigning
the four fixed keys `"Found"`/`"Missing"`, the rendered failure explanation
is exactly the message of each key marked `"Missing"`, in the fixed key
order, and the message of a key marked `"Found"` never appears. -/
theorem render_failure_reasons_missing_only (b1 b2 b3 b4 : Bool) :
    renderFailureReasons (mkChecks b1 b2 b3 b4) =
      ((reasons.zip [b1, b2, b3, b4]).filter (fun x => x.2)).map (fun x => x.1.2) ∧
    (∀ kv ∈ reasons, List.lookup kv.1 (mkChecks b1 b2 b3 b4) = some "Found" →
      kv.2 ∉ renderFailureReasons (mkChecks b1 b2 b3 b4)) := by
  cases b1 <;> cases b2 <;> cases b3 <;> cases b4 <;> exact ⟨rfl, by decide⟩

/-- Witness for C8, at the spec's example: `patient_name` and
`physician_signature` missing, `date` and `medication` found — exactly the
two missing items are listed and the `date` message is absent. -/
theorem render_failure_reasons_missing_only_witness :
    renderFailureReasons (mkChecks true false false true) =
      ["Patient name is missing. A valid medical report must clearly identify the patient.",
       "Doctor signature or authentication details are missing."] ∧
    "Report date is missing. The document must clearly specify when it was issued." ∉
      renderFailureReasons (mkChecks true false false true) := by
  have h := render_failure_reasons_missing_only true false false true
  refine ⟨h.1.trans (by decide), ?_⟩
  exact h.2 ("date", "Report date is missing. The document must clearly specify when it was issued.")
    (by decide) (by decide)

/-- Claim C9 (status: code_bug, evaluation at the failing input).
`extract_text_from_image` never acquires any semaphore — `MAX_CONCURRENT_OCR`
is not referenced anywhere in src/src/textextraction.py — so under the
interleaving semantics of the source a batch of six concurrent extraction
calls can all be inside the external OCR call at one instant, exceeding the
limit the spec asserts. -/
theorem ocr_in_flight_exceeds_limit :
    OcrSchedule (List.replicate 6 Phase.inOCR) ∧
    MAX_CONCURRENT_OCR < inFlight (List.replicate 6 Phase.inOCR) := by
  constructor
  · have h0 : OcrSchedule
        [Phase.idle, Phase.idle, Phase.idle, Phase.idle, Phase.idle, Phase.idle] :=
      OcrSchedule.init 6
    have h1 : OcrSchedule
        [Phase.inOCR, Phase.idle, Phase.idle, Phase.idle, Phase.idle, Phase.idle] :=
      OcrSchedule.start
        [Phase.idle, Phase.idle, Phase.idle, Phase.idle, Phase.idle, Phase.idle]
        0 (by decide) rfl h0
    have h2 : OcrSchedule
        [Phase.inOCR, Phase.inOCR, Phase.idle, Phase.idle, Phase.idle, Phase.idle] :=
      OcrSchedule.start
        [Phase.inOCR, Phase.idle, Phase.idle, Phase.idle, Phase.idle, Phase.idle]
        1 (by decide) rfl h1
    have h3 : OcrSchedule
        [Phase.inOCR, Phase.inOCR, Phase.inOCR, Phase.idle, Phase.idle, Phase.idle] :=
      OcrSchedule.start
        [Phase.inOCR, Phase.inOCR, Phase.idle, Phase.idle, Phase.idle, Phase.idle]
        2 (by decide) rfl h2
    have h4 : OcrSchedule
        [Phase.inOCR, Phase.inOCR, Phase.inOCR, Phase.inOCR, Phase.idle, Phase.idle] :=
      OcrSchedule.start
        [Phase.inOCR, Phase.inOCR, Phase.inOCR, Phase.idle, Phase.idle, Phase.idle]
        3 (by decide) rfl h3
    have h5 : OcrSchedule
        [Phase.inOCR, Phase.inOCR, Phase.inOCR, Phase.inOCR, Phase.inOCR, Phase.idle] :=
      OcrSchedule.start
        [Phase.inOCR, Phase.inOCR, Phase.inOCR, Phase.inOCR, Phase.idle, Phase.idle]
        4 (by decide) rfl h4
    have h6 : OcrSchedule
        [Phase.inOCR, Phase.inOCR, Phase.inOCR, Phase.inOCR, Phase.inOCR, Phase.inOCR] :=
      OcrSchedule.start
        [Phase.inOCR, Phase.inOCR, Phase.inOCR, Phase.inOCR, Phase.inOCR, Phase.idle]
        5 (by decide) rfl h5
    exact h6
  · decide

/-- Claim C10 (status: confirmed).  The validator lowercases the suffix
before the membership test, so its verdict is invariant under changing the
letter case of the extension (first conjunct), and any file whose lowercased
suffix is allowed passes the extension check — with the other three checks
satisfied it is accepted outright (second conjunct). -/
theorem validate_file_extension_case_insensitive (f g : FSFile) :
    (f.present = g.present → f.size = g.size → f.readable = g.readable →
      pyLower (pathSuffix f.path) = pyLower (pathSuffix g.path) →
      validate_file f = validate_file g) ∧
    (pyLower (pathSuffix f.path) ∈ ALLOWED_EXTENSIONS →
      f.present = true → MIN_FILE_SIZE ≤ f.size → f.size ≤ MAX_FILE_SIZE →
      f.readable = true → validate_file f = (true, "OK")) := by
  constructor
  · intro hp hs hr hsuf
    simp only [validate_file, hp, hs, hr, hsuf]
  · intro hext hp hmin hmax hr
    simp [validate_file, hp, hext, hr, Nat.not_lt.mpr hmin, Nat.not_lt.mpr hmax]

/-- Witness for C10: `scan.PDF` — an uppercase variant of the allowed
`.pdf` — is accepted. -/
theorem validate_file_extension_case_insensitive_witness :
    validate_file { path := "scan.PDF", present := true, size := 4096, readable := true } =
      (true, "OK") :=
  (validate_file_extension_case_insensitive
    { path := "scan.PDF", present := true, size := 4096, readable := true }
    { path := "scan.PDF", present := true, size := 4096, readable := true }).2
    (by decide) rfl (by decide) (by decide) rfl

end MedicalAI
